import Mathlib

/-!
Shallow embedding of `cerbero/build/fridge.py`: the environment-fingerprinted
binary artifact cache ("the fridge").  File systems (the local cache directory
and the remote FTP store) are modelled as association lists from path strings
to file contents; the SHA-256 function of `cerbero.utils.shell.file_sha256`
is an external collaborator and is passed as an abstract parameter
`hash : String → String` (its hex digest).  Python exceptions become an
explicit error type, and functions that mutate the file system return the
resulting file systems alongside the `Except` result, together with the list
of intermediate store states and the list of transferred remote paths, so
that intermediate visibility (sidecar before artifact) can be stated.
-/

/-- A file system: an association list from path to file content.
`write` shadows earlier entries; `read` returns the most recent one. -/
abbrev Fs := List (String × String)

def Fs.read (fs : Fs) (k : String) : Option String :=
  match fs with
  | [] => none
  | (k', v) :: rest => if k' = k then some v else Fs.read rest k

def Fs.write (fs : Fs) (k v : String) : Fs := (k, v) :: fs

def Fs.remove (fs : Fs) (k : String) : Fs :=
  match fs with
  | [] => []
  | (k', v) :: rest => if k' = k then Fs.remove rest k else (k', v) :: Fs.remove rest k

/-- Model of `os.path.join(a, b)` for the relative paths used by the fridge. -/
def pathJoin (a b : String) : String := a ++ "/" ++ b

/-- Characters before the first space. -/
def takeUntilSpace : List Char → List Char
  | [] => []
  | c :: cs => if c = ' ' then [] else c :: takeUntilSpace cs

/-- Characters before the first '/'. -/
def takeUntilSlash : List Char → List Char
  | [] => []
  | c :: cs => if c = '/' then [] else c :: takeUntilSlash cs

/-- Model of `os.path.basename`: everything after the last '/'. -/
def basename (s : String) : String := ⟨(takeUntilSlash s.data.reverse).reverse⟩

/-- Python `s.split(' ')[0]`: everything before the first space (the
convention `fetch_binary` uses to parse a `.sha256` sidecar). -/
def firstTokenSp (s : String) : String := ⟨takeUntilSpace s.data⟩

/-- Python `s.split()[0]` (the convention `upload_binary` uses): the first
maximal run of non-whitespace characters; `none` models the `IndexError`
raised on an all-whitespace string.  Sidecar contents only ever contain
spaces, so only the space separator is modelled. -/
def firstWord (s : String) : Option String :=
  firstWord.go s.data
where
  go : List Char → Option String
    | [] => none
    | c :: cs => if c = ' ' then go cs else some ⟨c :: takeUntilSpace cs⟩

/-- The exception classes of `cerbero.errors` that fridge.py raises, plus
`transportError` for raw library exceptions (aioftp faults, OSError, ...),
`integrityError` for the bare `Exception('Local file ... hash ... is
different than expected remote hash ...')` of fetch_binary, and `nameError`
for Python's `UnboundLocalError`. -/
inductive FridgeError where
  | packageNotFound (path : String)
  | integrityError (file localSha remoteSha : String)
  | fatalError (msg : String)
  | recipeNotFreezable (name : String)
  | emptyPackage (name : String)
  | transportError (msg : String)
  | nameError (var : String)
deriving DecidableEq, Repr

/-- Result of `FtpBinaryRemote.fetch_binary`: the Python result (`ok` or the
raised exception), the final local cache directory, the successive local
file-system states after each local write/remove, and the remote paths
actually downloaded. -/
structure FetchResult where
  res : Except FridgeError Unit
  localFs : Fs
  states : List Fs
  downloads : List String
deriving Repr

/-- Model of `FtpBinaryRemote.fetch_binary(package_name, local_dir, remote_dir)`
(fridge.py lines 103-147).  `remoteRoot` is `urlparse(self.remote).path`;
`remoteFs` is the remote store, read-only here.  The session setup
(hostname/port/credentials) has no file-system effect and is not modelled.
A failing download of the remote sidecar (line 116) is a raw aioftp
exception, propagated uncaught and writing nothing locally. -/
def fetch_binary (hash : String → String) (remoteFs : Fs)
    (remoteRoot packageName localDir remoteDir : String) (localFs : Fs) :
    FetchResult :=
  if packageName = "" then
    -- `if package_name:` is false: the session closes with nothing done
    ⟨.ok (), localFs, [], []⟩
  else
    let local_filename := pathJoin localDir packageName
    let local_sha256_filename := local_filename ++ ".sha256"
    let remote_sha256_filename :=
      pathJoin (pathJoin remoteRoot remoteDir) packageName ++ ".sha256"
    match remoteFs.read remote_sha256_filename with
    | none => ⟨.error (.transportError remote_sha256_filename), localFs, [], []⟩
    | some sidecar =>
      let fs1 := localFs.write local_sha256_filename sidecar
      let remote_sha256 := firstTokenSp sidecar
      -- `try: if os.path.isfile(local_filename): ... except Exception: pass`
      let download_needed :=
        match fs1.read local_filename with
        | some c => !(hash c == remote_sha256)
        | none => true
      if download_needed then
        let remote_file := pathJoin (pathJoin remoteRoot remoteDir) packageName
        match remoteFs.read remote_file with
        | some art =>
          let fs2 := fs1.write local_filename art
          let local_sha256 := hash art
          if remote_sha256 ≠ local_sha256 then
            ⟨.error (.integrityError remote_file local_sha256 remote_sha256),
              fs2, [fs1, fs2],
              [remote_sha256_filename, remote_file]⟩
          else
            ⟨.ok (), fs2, [fs1, fs2], [remote_sha256_filename, remote_file]⟩
        | none =>
          -- `raise Exception` → except: ensure there are no file leftovers
          let fs2 := (fs1.remove local_filename).remove local_sha256_filename
          ⟨.error (.packageNotFound
              (pathJoin (pathJoin remoteRoot remoteDir) packageName)),
            fs2, [fs1, fs2], [remote_sha256_filename]⟩
      else
        ⟨.ok (), fs1, [fs1], [remote_sha256_filename]⟩

/-- Result of `FtpBinaryRemote.upload_binary`: Python result, final local and
remote file systems, the successive remote store states after each remote
write, and the remote paths uploaded. -/
structure UploadResult where
  res : Except FridgeError Unit
  localFs : Fs
  remoteFs : Fs
  states : List Fs
  uploads : List String
deriving Repr

/-- Model of `FtpBinaryRemote.upload_binary(package_name, local_dir, remote_dir,
env_file)` (fridge.py lines 149-187).  `envFile` is the local path of the
namespace's ENVIRONMENT descriptor.  `ftp.upload` of a missing local file
raises, modelled as `transportError`; the scratch `NamedTemporaryFile`
download-and-compare of the remote sidecar is the `try/except: pass` block,
any failure of which leaves `upload_needed = True`. -/
def upload_binary (hash : String → String) (envFile : String)
    (localFs remoteFs : Fs) (remoteRoot packageName localDir remoteDir : String) :
    UploadResult :=
  let remote_env_file := pathJoin (pathJoin remoteRoot remoteDir) (basename envFile)
  -- `if not ftp.file_exists(remote_env_file): ftp.upload(env_file, ...)`
  match remoteFs.read remote_env_file with
  | none =>
    match localFs.read envFile with
    | none => ⟨.error (.transportError envFile), localFs, remoteFs, [], []⟩
    | some envContent =>
      let r1 := remoteFs.write remote_env_file envContent
      upload_binary.rest hash localFs r1 remoteRoot packageName localDir remoteDir
        [r1] [remote_env_file]
  | some _ =>
    upload_binary.rest hash localFs remoteFs remoteRoot packageName localDir remoteDir
      [] []
where
  /-- The `if package_name:` body (lines 156-187), after the descriptor step;
  `states`/`uploads` accumulate the remote writes already performed. -/
  rest (hash : String → String) (localFs remoteFs : Fs)
      (remoteRoot packageName localDir remoteDir : String)
      (states : List Fs) (uploads : List String) : UploadResult :=
    if packageName = "" then
      ⟨.ok (), localFs, remoteFs, states, uploads⟩
    else
      let remote_filename := pathJoin (pathJoin remoteRoot remoteDir) packageName
      let remote_sha256_filename := remote_filename ++ ".sha256"
      let local_filename := pathJoin localDir packageName
      let local_sha256_filename := local_filename ++ ".sha256"
      match localFs.read local_filename with
      | none =>
        -- `shell.file_sha256(local_filename)` raises on a missing file
        ⟨.error (.transportError local_filename), localFs, remoteFs, states, uploads⟩
      | some art =>
        let sha := hash art
        let sidecarContent := sha ++ " " ++ packageName
        let lfs1 := localFs.write local_sha256_filename sidecarContent
        -- try: download remote sidecar to a tempfile and compare; except: pass
        let upload_needed :=
          match remoteFs.read remote_sha256_filename with
          | none => true
          | some rc =>
            match firstWord sidecarContent, firstWord rc with
            | some l, some r => !(l == r)
            | _, _ => true
        if upload_needed then
          let r2 := remoteFs.write remote_sha256_filename sidecarContent
          let r3 := r2.write remote_filename art
          ⟨.ok (), lfs1, r3, states ++ [r2, r3],
            uploads ++ [remote_sha256_filename, remote_filename]⟩
        else
          -- 'No need to upload since local and remote SHA256 are the same'
          ⟨.ok (), lfs1, remoteFs, states, uploads⟩

theorem Fs.read_write_self (fs : Fs) (k v : String) :
    (fs.write k v).read k = some v := by
  simp [Fs.write, Fs.read]

theorem Fs.read_write_ne (fs : Fs) (k k' v : String) (h : k ≠ k') :
    (fs.write k v).read k' = fs.read k' := by
  simp [Fs.write, Fs.read, h]

theorem Fs.read_remove_self (fs : Fs) (k : String) :
    (fs.remove k).read k = none := by
  induction fs with
  | nil => simp [Fs.remove, Fs.read]
  | cons hd tl ih =>
    by_cases h : hd.1 = k
    · simpa [Fs.remove, h] using ih
    · simp [Fs.remove, Fs.read, h, ih]

theorem Fs.read_remove_ne (fs : Fs) (k k' : String) (h : k ≠ k') :
    (fs.remove k).read k' = fs.read k' := by
  induction fs with
  | nil => simp [Fs.remove]
  | cons hd tl ih =>
    by_cases hh : hd.1 = k
    · simp [Fs.remove, Fs.read, hh, h, ih]
    · by_cases hk : hd.1 = k'
      · simp [Fs.remove, Fs.read, hh, hk, Ne.symm h]
      · simp [Fs.remove, Fs.read, hh, hk, ih]

theorem string_append_left_cancel {s t u : String} (h : s ++ t = s ++ u) : t = u := by
  have h2 := congrArg String.data h
  simp [String.data_append] at h2
  exact String.ext h2

theorem self_ne_append_sha256 (s : String) : s ≠ s ++ ".sha256" := by
  intro h
  have h2 := congrArg String.length h
  rw [String.length_append] at h2
  have h7 : String.length ".sha256" = 7 := rfl
  omega

theorem pathJoin_right_inj {p a b : String} (h : pathJoin p a = pathJoin p b) :
    a = b := by
  unfold pathJoin at h
  exact string_append_left_cancel h

theorem pathJoin_ne_sidecar {p a b : String} (h : a ≠ b ++ ".sha256") :
    pathJoin p a ≠ pathJoin p b ++ ".sha256" := by
  intro hc
  apply h
  apply pathJoin_right_inj (p := p)
  unfold pathJoin at hc ⊢
  rw [hc, String.append_assoc]

/-- The pairing invariant of spec §3: a `.sha256` sidecar for `name` under
`dir` is only present when the artifact is present at the same location and
its content hash equals the hash recorded in the sidecar (the sidecar's
first space-separated token, the fetch-side parse). -/
def sidecarOkB (hash : String → String) (fs : Fs) (dir name : String) : Bool :=
  match fs.read (pathJoin dir name ++ ".sha256") with
  | none => true
  | some c =>
    match fs.read (pathJoin dir name) with
    | none => false
    | some a => hash a == firstTokenSp c

/-- The part of `cerbero.config.Config` that fridge.py reads. -/
structure FridgeConfig where
  binaries_local : String
  binaries_remote : Bool
  checksum : String
  checksum_string : String
deriving Repr

/-- A recipe as seen by the fridge: its name and the
`allow_package_creation` cacheability flag. -/
structure Recipe where
  name : String
  allow_package_creation : Bool
deriving Repr

/-- The instance attributes of a `Fridge` object that `_ensure_ready`
manages.  `none` models a still-unset attribute / `None`. -/
structure FridgeS where
  config : FridgeConfig
  binaries_remote : Bool
  env_checksum : Option String
  binaries_local : Option String
  env_file : Option String
deriving Repr

/-- Python truthiness of an optional string: `None` and `''` are falsy. -/
def truthyStr : Option String → Bool
  | none => false
  | some s => !(s == "")

/-- Model of `Fridge.__init__` (lines 199-207): records the remote, leaves the
checksum unset, and fails fatally when no local binaries directory is
configured. -/
def Fridge.init (config : FridgeConfig) : Except FridgeError FridgeS :=
  if config.binaries_local = "" then
    .error (.fatalError "Configuration without binaries local dir")
  else
    .ok ⟨config, config.binaries_remote, none, none, none⟩

/-- Model of `Fridge._ensure_ready(recipe)` (lines 284-298).  Returns the Python
result together with the updated instance state and local file system.
`os.makedirs(self.binaries_local)` creates a directory, which the file-map
model does not track. -/
def Fridge.ensure_ready (f : FridgeS) (recipe : Recipe) (localFs : Fs) :
    Except FridgeError Unit × FridgeS × Fs :=
  if !recipe.allow_package_creation then
    (.error (.recipeNotFreezable recipe.name), f, localFs)
  else if truthyStr f.env_checksum then
    (.ok (), f, localFs)
  else
    let cs := f.config.checksum.take 8
    let bl := pathJoin f.config.binaries_local cs
    let f1 := { f with env_checksum := some cs, binaries_local := some bl }
    if !f.binaries_remote then
      (.error (.fatalError "Configuration without binaries remote"), f1, localFs)
    else
      let envPath := pathJoin bl "ENVIRONMENT"
      let f2 := { f1 with env_file := some envPath }
      match localFs.read envPath with
      | some _ => (.ok (), f2, localFs)
      | none =>
        (.ok (), f2, localFs.write envPath (cs ++ "\n\n" ++ f.config.checksum_string))

/-- Model of `Fridge.check_remote_binary_exists(recipe)` (lines 209-229), after
`_ensure_ready` has succeeded.  The three sub-steps of the `try:` block —
awaiting `recipe.async_built_version()`, `self._get_package_name(recipe)`
and `self.binaries_remote.binary_exists(...)` — are passed as `Except`
values (the exception each raises, if any).  The `except` clauses keep a
`PackageNotFoundError` unchanged and turn any other exception into
`PackageNotFoundError(os.path.join(self.env_checksum, package_name))`; when
the exception escaped before the assignment of the local variable
`package_name`, evaluating it in the handler raises `UnboundLocalError`
(`nameError`). -/
def Fridge.check_remote_binary_exists (env_checksum : String)
    (builtVersion : Except FridgeError Unit)
    (getPackageName : Except FridgeError String)
    (binaryExistsQuery : String → Except FridgeError Bool) :
    Except FridgeError Unit :=
  let body : Except FridgeError Unit × Option String :=
    match builtVersion with
    | .error e => (.error e, none)
    | .ok _ =>
      match getPackageName with
      | .error e => (.error e, none)
      | .ok package_name =>
        match binaryExistsQuery package_name with
        | .error e => (.error e, some package_name)
        | .ok true => (.ok (), some package_name)
        | .ok false =>
          (.error (.packageNotFound (pathJoin env_checksum package_name)),
           some package_name)
  match body with
  | (.ok _, _) => .ok ()
  | (.error (.packageNotFound p), _) => .error (.packageNotFound p)
  | (.error _, some package_name) =>
    .error (.packageNotFound (pathJoin env_checksum package_name))
  | (.error _, none) => .error (.nameError "package_name")

/-- A package of the package store (`store.get_package`). -/
structure CPackage where
  name : String
  version : String
deriving Repr

/-- Target platform/architecture of the configuration, as consumed by
artifact naming. -/
structure TargetConfig where
  target_platform : String
  target_arch : String
deriving Repr

/-- Model of `store.get_package(name)`. -/
abbrev PackageStore := String → CPackage

/-- Modelled from the spec: `DistTarball.get_name` lives in
`cerbero.packages.disttarball`, which is not under src/.  Spec §3:
"Artifact: a packaged binary file for a given recipe, named by a pure
function of recipe name, resolved version, target platform/architecture,
and package flavor".  The concrete format below is one such pure function. -/
def DistTarball.get_name (cfg : TargetConfig) (p : CPackage) (flavor : String) :
    String :=
  p.name ++ "-" ++ cfg.target_platform ++ "-" ++ cfg.target_arch ++ "-" ++
    p.version ++ "-" ++ flavor ++ ".tar.bz2"

/-- Model of `Fridge._get_package_name(recipe)` (lines 300-303): looks up the package
`<recipe>-pkg` in the store and asks the tarball component for the DEVEL
flavor name. -/
def Fridge.get_package_name (store : PackageStore) (cfg : TargetConfig)
    (recipe : Recipe) : String :=
  DistTarball.get_name cfg (store (recipe.name ++ "-pkg")) "devel"

/-- Model of `Fridge.fetch_binary(recipe)` (lines 231-236), after `_ensure_ready`:
derives the package name and delegates to the backend fetch into the local
namespace directory; the derived name is returned alongside. -/
def Fridge.fetch_binary_step (hash : String → String) (store : PackageStore)
    (cfg : TargetConfig) (recipe : Recipe)
    (binaries_local env_checksum remoteRoot : String) (localFs remoteFs : Fs) :
    FetchResult × String :=
  let package_name := Fridge.get_package_name store cfg recipe
  (fetch_binary hash remoteFs remoteRoot package_name binaries_local env_checksum
      localFs,
   package_name)

/-- Model of `Fridge.upload_binary(recipe)` (lines 272-282), after `_ensure_ready`:
derives the package name; if the local artifact file is missing the backend
is invoked with `fetch_package = None` (modelled as the empty name, the
descriptor-only degradation); the derived name is returned alongside. -/
def Fridge.upload_binary_step (hash : String → String) (store : PackageStore)
    (cfg : TargetConfig) (recipe : Recipe)
    (binaries_local env_checksum remoteRoot env_file : String)
    (localFs remoteFs : Fs) : UploadResult × String :=
  let package_name := Fridge.get_package_name store cfg recipe
  let fetch_package :=
    if (localFs.read (pathJoin binaries_local package_name)).isSome then
      package_name
    else ""
  (upload_binary hash env_file localFs remoteFs remoteRoot fetch_package
      binaries_local env_checksum,
   package_name)

/-- C10: a backend fetch invoked with an empty artifact name performs no
downloads, terminates successfully, and leaves the local cache directory
completely unchanged (no state transition, no transfer). -/
theorem C10_empty_name_fetch_noop (hash : String → String) (remoteFs localFs : Fs)
    (remoteRoot localDir remoteDir : String) :
    fetch_binary hash remoteFs remoteRoot "" localDir remoteDir localFs =
      ⟨.ok (), localFs, [], []⟩ := by
  simp [fetch_binary]

/-- C4: when a local artifact already exists and its hash equals the hash
recorded in the freshly downloaded remote sidecar, fetch succeeds, transfers
only the sidecar (no artifact download), and leaves the local artifact file
unchanged. -/
theorem C4_cache_hit_no_download (hash : String → String) (remoteFs localFs : Fs)
    (remoteRoot packageName localDir remoteDir sidecar art : String)
    (hn : packageName ≠ "")
    (hsc : remoteFs.read
        (pathJoin (pathJoin remoteRoot remoteDir) packageName ++ ".sha256")
      = some sidecar)
    (hart : localFs.read (pathJoin localDir packageName) = some art)
    (hmatch : hash art = firstTokenSp sidecar) :
    (fetch_binary hash remoteFs remoteRoot packageName localDir remoteDir localFs).res
        = .ok ()
    ∧ (fetch_binary hash remoteFs remoteRoot packageName localDir remoteDir localFs).downloads
        = [pathJoin (pathJoin remoteRoot remoteDir) packageName ++ ".sha256"]
    ∧ (fetch_binary hash remoteFs remoteRoot packageName localDir remoteDir localFs).localFs
        = localFs.write (pathJoin localDir packageName ++ ".sha256") sidecar
    ∧ (fetch_binary hash remoteFs remoteRoot packageName localDir remoteDir localFs).localFs.read
        (pathJoin localDir packageName) = some art := by
  have hkey : pathJoin localDir packageName ++ ".sha256" ≠ pathJoin localDir packageName :=
    Ne.symm (self_ne_append_sha256 _)
  have hread : (localFs.write (pathJoin localDir packageName ++ ".sha256") sidecar).read
      (pathJoin localDir packageName) = some art := by
    rw [Fs.read_write_ne _ _ _ _ hkey, hart]
  simp [fetch_binary, hn, hsc, hread, hmatch]

/-- C4 witness: a concrete cache hit. -/
theorem C4_cache_hit_no_download_witness :
    (fetch_binary (fun c => "H" ++ c) [("R/ns/A.sha256", "HX A")] "R" "A" "L" "ns"
        [("L/A", "X")]).res = .ok ()
    ∧ (fetch_binary (fun c => "H" ++ c) [("R/ns/A.sha256", "HX A")] "R" "A" "L" "ns"
        [("L/A", "X")]).downloads = [pathJoin (pathJoin "R" "ns") "A" ++ ".sha256"]
    ∧ (fetch_binary (fun c => "H" ++ c) [("R/ns/A.sha256", "HX A")] "R" "A" "L" "ns"
        [("L/A", "X")]).localFs
        = Fs.write [("L/A", "X")] (pathJoin "L" "A" ++ ".sha256") "HX A"
    ∧ (fetch_binary (fun c => "H" ++ c) [("R/ns/A.sha256", "HX A")] "R" "A" "L" "ns"
        [("L/A", "X")]).localFs.read (pathJoin "L" "A") = some "X" :=
  C4_cache_hit_no_download (fun c => "H" ++ c) [("R/ns/A.sha256", "HX A")]
    [("L/A", "X")] "R" "A" "L" "ns" "HX A" "X"
    (by decide) (by decide) (by decide) (by decide)

/-- C3: when the remote sidecar is present but the remote artifact object is
absent, and no matching local copy short-circuits the download, fetch raises
`PackageNotFoundError` (NotFound) and deletes any local artifact and the
just-written local sidecar: neither file remains in the local cache
directory. -/
theorem C3_absent_artifact_not_found (hash : String → String) (remoteFs localFs : Fs)
    (remoteRoot packageName localDir remoteDir sidecar : String)
    (hn : packageName ≠ "")
    (hsc : remoteFs.read
        (pathJoin (pathJoin remoteRoot remoteDir) packageName ++ ".sha256")
      = some sidecar)
    (hartR : remoteFs.read (pathJoin (pathJoin remoteRoot remoteDir) packageName)
      = none)
    (hnomatch : ∀ c, localFs.read (pathJoin localDir packageName) = some c →
      hash c ≠ firstTokenSp sidecar) :
    (fetch_binary hash remoteFs remoteRoot packageName localDir remoteDir localFs).res
        = .error (.packageNotFound (pathJoin (pathJoin remoteRoot remoteDir) packageName))
    ∧ (fetch_binary hash remoteFs remoteRoot packageName localDir remoteDir localFs).localFs.read
        (pathJoin localDir packageName) = none
    ∧ (fetch_binary hash remoteFs remoteRoot packageName localDir remoteDir localFs).localFs.read
        (pathJoin localDir packageName ++ ".sha256") = none := by
  have hkey : pathJoin localDir packageName ++ ".sha256" ≠ pathJoin localDir packageName :=
    Ne.symm (self_ne_append_sha256 _)
  have hneed :
      ((localFs.write (pathJoin localDir packageName ++ ".sha256") sidecar).read
          (pathJoin localDir packageName)).elim True (fun c => hash c ≠ firstTokenSp sidecar) := by
    rw [Fs.read_write_ne _ _ _ _ hkey]
    cases hc : localFs.read (pathJoin localDir packageName) with
    | none => trivial
    | some c => exact hnomatch c hc
  rw [Fs.read_write_ne _ _ _ _ hkey] at hneed
  cases hc : localFs.read (pathJoin localDir packageName) with
  | none =>
    simp [fetch_binary, hn, hsc, hartR, hc,
      Fs.read_write_ne _ _ _ _ hkey,
      Fs.read_remove_self, Fs.read_remove_ne _ _ _ hkey]
  | some c =>
    rw [hc] at hneed
    have : ¬ (hash c == firstTokenSp sidecar) = true := by
      simpa using hneed
    simp [fetch_binary, hn, hsc, hartR, hc,
      Fs.read_write_ne _ _ _ _ hkey, this,
      Fs.read_remove_self, Fs.read_remove_ne _ _ _ hkey]

/-- C3 witness: remote sidecar present, artifact absent, stale local copy. -/
theorem C3_absent_artifact_not_found_witness :
    (fetch_binary (fun c => "H" ++ c) [("R/ns/A.sha256", "HX A")] "R" "A" "L" "ns"
        [("L/A", "Z")]).res
      = .error (.packageNotFound (pathJoin (pathJoin "R" "ns") "A"))
    ∧ (fetch_binary (fun c => "H" ++ c) [("R/ns/A.sha256", "HX A")] "R" "A" "L" "ns"
        [("L/A", "Z")]).localFs.read (pathJoin "L" "A") = none
    ∧ (fetch_binary (fun c => "H" ++ c) [("R/ns/A.sha256", "HX A")] "R" "A" "L" "ns"
        [("L/A", "Z")]).localFs.read (pathJoin "L" "A" ++ ".sha256") = none :=
  C3_absent_artifact_not_found (fun c => "H" ++ c) [("R/ns/A.sha256", "HX A")]
    [("L/A", "Z")] "R" "A" "L" "ns" "HX A"
    (by decide) (by decide) (by decide)
    (by
      intro c hc
      have h0 : Fs.read [("L/A", "Z")] (pathJoin "L" "A") = some "Z" := by decide
      have h1 : some "Z" = some c := h0.symm.trans hc
      injection h1 with h2
      subst h2
      decide)

/-- C2 counterexample: a concrete fetch in which the downloaded artifact's
hash ("HY") differs from the hash recorded in the remote sidecar ("HX").
fetch does raise the integrity error, but — contrary to the claim — the
downloaded artifact file remains in the local cache directory: the
file-leftover cleanup (lines 138-142) only runs for the
`PackageNotFoundError` path, and the hash-mismatch raise at line 146 comes
after it. -/
theorem C2_counterexample :
    (fetch_binary (fun c => "H" ++ c) [("R/ns/A.sha256", "HX A"), ("R/ns/A", "Y")]
        "R" "A" "L" "ns" []).res
      = .error (.integrityError (pathJoin (pathJoin "R" "ns") "A") "HY" "HX")
    ∧ (fetch_binary (fun c => "H" ++ c) [("R/ns/A.sha256", "HX A"), ("R/ns/A", "Y")]
        "R" "A" "L" "ns" []).localFs.read (pathJoin "L" "A") = some "Y" := by
  constructor <;> rfl

/-- C2 amended: when the artifact is downloaded and the hash of the
downloaded bytes differs from the hash recorded in the remote sidecar,
fetch raises the integrity error (and no other error class), but the
downloaded artifact file and the downloaded sidecar both remain in the
local cache directory. -/
theorem C2_amended_integrity_error (hash : String → String) (remoteFs localFs : Fs)
    (remoteRoot packageName localDir remoteDir sidecar art : String)
    (hn : packageName ≠ "")
    (hsc : remoteFs.read
        (pathJoin (pathJoin remoteRoot remoteDir) packageName ++ ".sha256")
      = some sidecar)
    (hartR : remoteFs.read (pathJoin (pathJoin remoteRoot remoteDir) packageName)
      = some art)
    (hbad : hash art ≠ firstTokenSp sidecar)
    (hnomatch : ∀ c, localFs.read (pathJoin localDir packageName) = some c →
      hash c ≠ firstTokenSp sidecar) :
    (fetch_binary hash remoteFs remoteRoot packageName localDir remoteDir localFs).res
        = .error (.integrityError (pathJoin (pathJoin remoteRoot remoteDir) packageName)
            (hash art) (firstTokenSp sidecar))
    ∧ (fetch_binary hash remoteFs remoteRoot packageName localDir remoteDir localFs).localFs.read
        (pathJoin localDir packageName) = some art
    ∧ (fetch_binary hash remoteFs remoteRoot packageName localDir remoteDir localFs).localFs.read
        (pathJoin localDir packageName ++ ".sha256") = some sidecar := by
  have hkey : pathJoin localDir packageName ++ ".sha256" ≠ pathJoin localDir packageName :=
    Ne.symm (self_ne_append_sha256 _)
  have hbad' : firstTokenSp sidecar ≠ hash art := Ne.symm hbad
  cases hc : localFs.read (pathJoin localDir packageName) with
  | none =>
    simp [fetch_binary, hn, hsc, hartR, hc, hbad',
      Fs.read_write_ne _ _ _ _ hkey, Fs.read_write_self,
      Fs.read_write_ne _ _ _ _ (self_ne_append_sha256 (pathJoin localDir packageName))]
  | some c =>
    have : ¬ (hash c == firstTokenSp sidecar) = true := by
      simpa using hnomatch c hc
    simp [fetch_binary, hn, hsc, hartR, hc, hbad', this,
      Fs.read_write_ne _ _ _ _ hkey, Fs.read_write_self,
      Fs.read_write_ne _ _ _ _ (self_ne_append_sha256 (pathJoin localDir packageName))]

/-- C2 witness: the corrupted concrete fetch, through the amended theorem. -/
theorem C2_amended_integrity_error_witness :
    (fetch_binary (fun c => "H" ++ c) [("R/ns/A.sha256", "HX A"), ("R/ns/A", "Y")]
        "R" "A" "L" "ns" []).res
      = .error (.integrityError (pathJoin (pathJoin "R" "ns") "A")
          ((fun c => "H" ++ c) "Y") (firstTokenSp "HX A"))
    ∧ (fetch_binary (fun c => "H" ++ c) [("R/ns/A.sha256", "HX A"), ("R/ns/A", "Y")]
        "R" "A" "L" "ns" []).localFs.read (pathJoin "L" "A") = some "Y"
    ∧ (fetch_binary (fun c => "H" ++ c) [("R/ns/A.sha256", "HX A"), ("R/ns/A", "Y")]
        "R" "A" "L" "ns" []).localFs.read (pathJoin "L" "A" ++ ".sha256")
      = some "HX A" :=
  C2_amended_integrity_error (fun c => "H" ++ c)
    [("R/ns/A.sha256", "HX A"), ("R/ns/A", "Y")] [] "R" "A" "L" "ns" "HX A" "Y"
    (by decide) (by decide) (by decide) (by decide)
    (fun c hc => by simp [Fs.read] at hc)

/-- A write at a key unrelated to an artifact and its sidecar does not
change the pairing invariant for that artifact. -/
theorem sidecarOkB_write_other (hash : String → String) (fs : Fs)
    (dir name k v : String)
    (h1 : k ≠ pathJoin dir name) (h2 : k ≠ pathJoin dir name ++ ".sha256") :
    sidecarOkB hash (fs.write k v) dir name = sidecarOkB hash fs dir name := by
  simp [sidecarOkB, Fs.read_write_ne _ _ _ _ h2, Fs.read_write_ne _ _ _ _ h1]

/-- The artifact part of `upload_binary` (lines 156-187) preserves the
pairing invariant of the remote store for the uploaded artifact, whatever
remote writes already happened. -/
theorem upload_rest_sidecar_pairing (hash : String → String) (localFs r : Fs)
    (remoteRoot packageName localDir remoteDir art : String)
    (states : List Fs) (uploads : List String)
    (hpre : sidecarOkB hash r (pathJoin remoteRoot remoteDir) packageName = true)
    (hart : localFs.read (pathJoin localDir packageName) = some art)
    (hfw : firstTokenSp (hash art ++ " " ++ packageName) = hash art) :
    sidecarOkB hash
      (upload_binary.rest hash localFs r remoteRoot packageName localDir remoteDir
        states uploads).remoteFs
      (pathJoin remoteRoot remoteDir) packageName = true := by
  by_cases hn : packageName = ""
  · simpa [upload_binary.rest, hn] using hpre
  · have hkey : pathJoin (pathJoin remoteRoot remoteDir) packageName
        ≠ pathJoin (pathJoin remoteRoot remoteDir) packageName ++ ".sha256" :=
      self_ne_append_sha256 _
    simp only [upload_binary.rest, if_neg hn, hart]
    cases hsc : r.read
        (pathJoin (pathJoin remoteRoot remoteDir) packageName ++ ".sha256") with
    | none =>
      simp [sidecarOkB, hsc, Fs.read_write_self,
        Fs.read_write_ne _ _ _ _ hkey, hfw]
    | some rc =>
      simp only [hsc]
      split
      · simp [sidecarOkB, Fs.read_write_self, Fs.read_write_ne _ _ _ _ hkey, hfw]
      · exact hpre

/-- C1 counterexample: a concrete upload of artifact "A" (content "X") to an
empty remote store.  The remote-store state reached after the sidecar upload
(line 184) and before the artifact upload (line 185) exposes a sidecar for a
not-yet-uploaded artifact, so it is not true that in every state reachable
during the operation no sidecar points at a missing artifact. -/
theorem C1_counterexample :
    ((upload_binary (fun c => "H" ++ c) "L/ENVIRONMENT"
        [("L/A", "X"), ("L/ENVIRONMENT", "env")] [] "R" "A" "L" "ns").states.any
      (fun fs => !(sidecarOkB (fun c => "H" ++ c) fs (pathJoin "R" "ns") "A")))
      = true := by
  rfl

/-- C1 amended: the pairing invariant holds in the *final* state of the
operations rather than in every intermediate one: (i) a fetch that returns
successfully leaves the local sidecar of the fetched artifact pointing at a
present artifact with matching hash; (ii) an upload preserves the remote
pairing invariant for the uploaded artifact from pre-state to post-state
(the environment descriptor living under a different name).  During an
upload the invariant is momentarily violated, as the sidecar is published
before the artifact (the counterexample). -/
theorem C1_amended_final_state_pairing :
    (∀ (hash : String → String) (remoteFs localFs : Fs)
        (remoteRoot packageName localDir remoteDir : String),
        packageName ≠ "" →
        (fetch_binary hash remoteFs remoteRoot packageName localDir remoteDir
          localFs).res = .ok () →
        sidecarOkB hash
          (fetch_binary hash remoteFs remoteRoot packageName localDir remoteDir
            localFs).localFs localDir packageName = true)
    ∧ (∀ (hash : String → String) (envFile : String) (localFs remoteFs : Fs)
        (remoteRoot packageName localDir remoteDir art : String),
        sidecarOkB hash remoteFs (pathJoin remoteRoot remoteDir) packageName = true →
        basename envFile ≠ packageName →
        basename envFile ≠ packageName ++ ".sha256" →
        localFs.read (pathJoin localDir packageName) = some art →
        firstTokenSp (hash art ++ " " ++ packageName) = hash art →
        sidecarOkB hash
          (upload_binary hash envFile localFs remoteFs remoteRoot packageName
            localDir remoteDir).remoteFs
          (pathJoin remoteRoot remoteDir) packageName = true) := by
  constructor
  · intro hash remoteFs localFs remoteRoot packageName localDir remoteDir hn hok
    have hkey : pathJoin localDir packageName ++ ".sha256"
        ≠ pathJoin localDir packageName := Ne.symm (self_ne_append_sha256 _)
    cases hsc : remoteFs.read
        (pathJoin (pathJoin remoteRoot remoteDir) packageName ++ ".sha256") with
    | none => simp [fetch_binary, hn, hsc] at hok
    | some sidecar =>
      cases hlc : localFs.read (pathJoin localDir packageName) with
      | some c =>
        by_cases hm : (hash c == firstTokenSp sidecar) = true
        · simp [fetch_binary, hn, hsc, hlc, hm, Fs.read_write_ne _ _ _ _ hkey,
            sidecarOkB, Fs.read_write_self]
        · cases hra : remoteFs.read
              (pathJoin (pathJoin remoteRoot remoteDir) packageName) with
          | none =>
            simp [fetch_binary, hn, hsc, hlc, hm, hra,
              Fs.read_write_ne _ _ _ _ hkey] at hok
          | some art =>
            by_cases hb : firstTokenSp sidecar = hash art
            · have hb1 : ¬ (firstTokenSp sidecar ≠ hash art) := by simp [hb]
              have hb2 : (hash art == firstTokenSp sidecar) = true := by
                simp [hb.symm]
              simp [fetch_binary, hn, hsc, hlc, hm, hra, hb1, hb2,
                Fs.read_write_ne _ _ _ _ hkey, sidecarOkB, Fs.read_write_self,
                Fs.read_write_ne _ _ _ _ (self_ne_append_sha256 (pathJoin localDir packageName))]
            · simp [fetch_binary, hn, hsc, hlc, hm, hra, hb,
                Fs.read_write_ne _ _ _ _ hkey] at hok
      | none =>
        cases hra : remoteFs.read
            (pathJoin (pathJoin remoteRoot remoteDir) packageName) with
        | none =>
          simp [fetch_binary, hn, hsc, hlc, hra,
            Fs.read_write_ne _ _ _ _ hkey] at hok
        | some art =>
          by_cases hb : firstTokenSp sidecar = hash art
          · have hb1 : ¬ (firstTokenSp sidecar ≠ hash art) := by simp [hb]
            have hb2 : (hash art == firstTokenSp sidecar) = true := by
              simp [hb.symm]
            simp [fetch_binary, hn, hsc, hlc, hra, hb1, hb2,
              Fs.read_write_ne _ _ _ _ hkey, sidecarOkB, Fs.read_write_self,
              Fs.read_write_ne _ _ _ _ (self_ne_append_sha256 (pathJoin localDir packageName))]
          · simp [fetch_binary, hn, hsc, hlc, hra, hb,
              Fs.read_write_ne _ _ _ _ hkey] at hok
  · intro hash envFile localFs remoteFs remoteRoot packageName localDir remoteDir art
      hpre hebn hebs hart hfw
    have henvart : pathJoin (pathJoin remoteRoot remoteDir) (basename envFile)
        ≠ pathJoin (pathJoin remoteRoot remoteDir) packageName :=
      fun h => hebn (pathJoin_right_inj h)
    have henvsc : pathJoin (pathJoin remoteRoot remoteDir) (basename envFile)
        ≠ pathJoin (pathJoin remoteRoot remoteDir) packageName ++ ".sha256" :=
      pathJoin_ne_sidecar hebs
    cases henvR : remoteFs.read
        (pathJoin (pathJoin remoteRoot remoteDir) (basename envFile)) with
    | some v =>
      simp only [upload_binary, henvR]
      exact upload_rest_sidecar_pairing hash localFs remoteFs remoteRoot
        packageName localDir remoteDir art [] [] hpre hart hfw
    | none =>
      cases henvL : localFs.read envFile with
      | none => simpa [upload_binary, henvR, henvL] using hpre
      | some envc =>
        simp only [upload_binary, henvR, henvL]
        refine upload_rest_sidecar_pairing hash localFs _ remoteRoot
          packageName localDir remoteDir art _ _ ?_ hart hfw
        rw [sidecarOkB_write_other hash remoteFs (pathJoin remoteRoot remoteDir)
          packageName _ envc henvart henvsc]
        exact hpre

/-- C1 witness: concrete instances of both final-state pairing statements. -/
theorem C1_amended_final_state_pairing_witness :
    (sidecarOkB (fun c => "H" ++ c)
      (fetch_binary (fun c => "H" ++ c) [("R/ns/A.sha256", "HX A"), ("R/ns/A", "X")]
        "R" "A" "L" "ns" []).localFs "L" "A" = true)
    ∧ (sidecarOkB (fun c => "H" ++ c)
      (upload_binary (fun c => "H" ++ c) "L/ENVIRONMENT"
        [("L/A", "X"), ("L/ENVIRONMENT", "env")] [] "R" "A" "L" "ns").remoteFs
      (pathJoin "R" "ns") "A" = true) :=
  ⟨C1_amended_final_state_pairing.1 (fun c => "H" ++ c)
      [("R/ns/A.sha256", "HX A"), ("R/ns/A", "X")] [] "R" "A" "L" "ns"
      (by decide) (by rfl),
   C1_amended_final_state_pairing.2 (fun c => "H" ++ c) "L/ENVIRONMENT"
      [("L/A", "X"), ("L/ENVIRONMENT", "env")] [] "R" "A" "L" "ns" "X"
      (by decide) (by decide) (by decide) (by decide) (by decide)⟩

/-- The artifact part of `upload_binary` when the remote sidecar is absent
(the scratch download fails): treated as "must upload", so the local sidecar
is (re)written and the sidecar and artifact are both published. -/
theorem upload_rest_fresh (hash : String → String) (localFs r : Fs)
    (remoteRoot packageName localDir remoteDir art : String)
    (states : List Fs) (uploads : List String)
    (hn : packageName ≠ "")
    (hart : localFs.read (pathJoin localDir packageName) = some art)
    (hnosc : r.read
        (pathJoin (pathJoin remoteRoot remoteDir) packageName ++ ".sha256") = none) :
    upload_binary.rest hash localFs r remoteRoot packageName localDir remoteDir
        states uploads
      = ⟨.ok (),
          localFs.write (pathJoin localDir packageName ++ ".sha256")
            (hash art ++ " " ++ packageName),
          (r.write (pathJoin (pathJoin remoteRoot remoteDir) packageName ++ ".sha256")
              (hash art ++ " " ++ packageName)).write
            (pathJoin (pathJoin remoteRoot remoteDir) packageName) art,
          states ++
            [r.write (pathJoin (pathJoin remoteRoot remoteDir) packageName ++ ".sha256")
                (hash art ++ " " ++ packageName),
             (r.write (pathJoin (pathJoin remoteRoot remoteDir) packageName ++ ".sha256")
                  (hash art ++ " " ++ packageName)).write
               (pathJoin (pathJoin remoteRoot remoteDir) packageName) art],
          uploads ++
            [pathJoin (pathJoin remoteRoot remoteDir) packageName ++ ".sha256",
             pathJoin (pathJoin remoteRoot remoteDir) packageName]⟩ := by
  simp [upload_binary.rest, hn, hart, hnosc]

/-- The artifact part of `upload_binary` when the remote sidecar is present
and its first token matches the local one: the upload is skipped (logged
no-op); only the local sidecar rewrite happens. -/
theorem upload_rest_match (hash : String → String) (localFs r : Fs)
    (remoteRoot packageName localDir remoteDir art w : String)
    (states : List Fs) (uploads : List String)
    (hn : packageName ≠ "")
    (hart : localFs.read (pathJoin localDir packageName) = some art)
    (hsc : r.read
        (pathJoin (pathJoin remoteRoot remoteDir) packageName ++ ".sha256")
      = some (hash art ++ " " ++ packageName))
    (hw : firstWord (hash art ++ " " ++ packageName) = some w) :
    upload_binary.rest hash localFs r remoteRoot packageName localDir remoteDir
        states uploads
      = ⟨.ok (),
          localFs.write (pathJoin localDir packageName ++ ".sha256")
            (hash art ++ " " ++ packageName),
          r, states, uploads⟩ := by
  simp [upload_binary.rest, hn, hart, hsc, hw]

/-- Two successive uploads of the same artifact from the same local cache
directory to the same namespace, the second starting from the state the
first left behind. -/
def upload_twice (hash : String → String) (envFile : String)
    (localFs remoteFs : Fs) (remoteRoot packageName localDir remoteDir : String) :
    UploadResult × UploadResult :=
  let r1 := upload_binary hash envFile localFs remoteFs remoteRoot packageName
    localDir remoteDir
  let r2 := upload_binary hash envFile r1.localFs r1.remoteFs remoteRoot packageName
    localDir remoteDir
  (r1, r2)

/-- C5: uploading the same artifact twice to the same namespace transfers it
at most once.  Starting from a remote store holding no sidecar for the
artifact, the first upload treats the failed scratch sidecar download as
"must upload" (not as an error) and publishes sidecar and artifact; the
second upload finds the remote sidecar hash equal to the locally computed
one, uploads nothing, and leaves the remote store untouched. -/
theorem C5_second_upload_is_noop (hash : String → String) (envFile : String)
    (localFs remoteFs : Fs)
    (remoteRoot packageName localDir remoteDir art envc : String)
    (hn : packageName ≠ "")
    (hart : localFs.read (pathJoin localDir packageName) = some art)
    (henv : localFs.read envFile = some envc)
    (hebn : basename envFile ≠ packageName)
    (hebs : basename envFile ≠ packageName ++ ".sha256")
    (hnosc : remoteFs.read
        (pathJoin (pathJoin remoteRoot remoteDir) packageName ++ ".sha256") = none)
    (hfw : (firstWord (hash art ++ " " ++ packageName)).isSome = true) :
    (upload_twice hash envFile localFs remoteFs remoteRoot packageName localDir
        remoteDir).1.res = .ok ()
    ∧ pathJoin (pathJoin remoteRoot remoteDir) packageName ++ ".sha256"
        ∈ (upload_twice hash envFile localFs remoteFs remoteRoot packageName localDir
            remoteDir).1.uploads
    ∧ pathJoin (pathJoin remoteRoot remoteDir) packageName
        ∈ (upload_twice hash envFile localFs remoteFs remoteRoot packageName localDir
            remoteDir).1.uploads
    ∧ (upload_twice hash envFile localFs remoteFs remoteRoot packageName localDir
        remoteDir).2.res = .ok ()
    ∧ (upload_twice hash envFile localFs remoteFs remoteRoot packageName localDir
        remoteDir).2.uploads = []
    ∧ (upload_twice hash envFile localFs remoteFs remoteRoot packageName localDir
        remoteDir).2.remoteFs
      = (upload_twice hash envFile localFs remoteFs remoteRoot packageName localDir
          remoteDir).1.remoteFs := by
  obtain ⟨w, hw⟩ := Option.isSome_iff_exists.mp hfw
  have henvart : pathJoin (pathJoin remoteRoot remoteDir) (basename envFile)
      ≠ pathJoin (pathJoin remoteRoot remoteDir) packageName :=
    fun h => hebn (pathJoin_right_inj h)
  have henvsc : pathJoin (pathJoin remoteRoot remoteDir) (basename envFile)
      ≠ pathJoin (pathJoin remoteRoot remoteDir) packageName ++ ".sha256" :=
    pathJoin_ne_sidecar hebs
  have hartsc : pathJoin (pathJoin remoteRoot remoteDir) packageName
      ≠ pathJoin (pathJoin remoteRoot remoteDir) packageName ++ ".sha256" :=
    self_ne_append_sha256 _
  have hlkey : pathJoin localDir packageName ++ ".sha256"
      ≠ pathJoin localDir packageName := Ne.symm (self_ne_append_sha256 _)
  have hart2 : (localFs.write (pathJoin localDir packageName ++ ".sha256")
        (hash art ++ " " ++ packageName)).read (pathJoin localDir packageName)
      = some art := by
    rw [Fs.read_write_ne _ _ _ _ hlkey]; exact hart
  cases henvR : remoteFs.read
      (pathJoin (pathJoin remoteRoot remoteDir) (basename envFile)) with
  | none =>
    have hnosc1 : (remoteFs.write
          (pathJoin (pathJoin remoteRoot remoteDir) (basename envFile)) envc).read
        (pathJoin (pathJoin remoteRoot remoteDir) packageName ++ ".sha256")
        = none := by
      rw [Fs.read_write_ne _ _ _ _ henvsc]; exact hnosc
    have e1 : upload_binary hash envFile localFs remoteFs remoteRoot packageName
        localDir remoteDir
        = upload_binary.rest hash localFs
            (remoteFs.write
              (pathJoin (pathJoin remoteRoot remoteDir) (basename envFile)) envc)
            remoteRoot packageName localDir remoteDir
            [remoteFs.write
              (pathJoin (pathJoin remoteRoot remoteDir) (basename envFile)) envc]
            [pathJoin (pathJoin remoteRoot remoteDir) (basename envFile)] := by
      simp [upload_binary, henvR, henv]
    rw [upload_rest_fresh hash localFs _ remoteRoot packageName localDir remoteDir
      art _ _ hn hart hnosc1] at e1
    have henv2 : ((((remoteFs.write
          (pathJoin (pathJoin remoteRoot remoteDir) (basename envFile)) envc).write
            (pathJoin (pathJoin remoteRoot remoteDir) packageName ++ ".sha256")
            (hash art ++ " " ++ packageName)).write
          (pathJoin (pathJoin remoteRoot remoteDir) packageName) art)).read
        (pathJoin (pathJoin remoteRoot remoteDir) (basename envFile))
        = some envc := by
      rw [Fs.read_write_ne _ _ _ _ (Ne.symm henvart),
        Fs.read_write_ne _ _ _ _ (Ne.symm henvsc), Fs.read_write_self]
    have hsc2 : ((((remoteFs.write
          (pathJoin (pathJoin remoteRoot remoteDir) (basename envFile)) envc).write
            (pathJoin (pathJoin remoteRoot remoteDir) packageName ++ ".sha256")
            (hash art ++ " " ++ packageName)).write
          (pathJoin (pathJoin remoteRoot remoteDir) packageName) art)).read
        (pathJoin (pathJoin remoteRoot remoteDir) packageName ++ ".sha256")
        = some (hash art ++ " " ++ packageName) := by
      rw [Fs.read_write_ne _ _ _ _ hartsc, Fs.read_write_self]
    simp only [upload_twice, e1]
    rw [show (upload_binary hash envFile
        (localFs.write (pathJoin localDir packageName ++ ".sha256")
          (hash art ++ " " ++ packageName))
        ((((remoteFs.write
            (pathJoin (pathJoin remoteRoot remoteDir) (basename envFile)) envc).write
              (pathJoin (pathJoin remoteRoot remoteDir) packageName ++ ".sha256")
              (hash art ++ " " ++ packageName)).write
            (pathJoin (pathJoin remoteRoot remoteDir) packageName) art))
        remoteRoot packageName localDir remoteDir)
      = _ from by
        simp only [upload_binary, henv2]
        exact upload_rest_match hash _ _ remoteRoot packageName localDir remoteDir
          art w [] [] hn hart2 hsc2 hw]
    simp
  | some v =>
    have e1 : upload_binary hash envFile localFs remoteFs remoteRoot packageName
        localDir remoteDir
        = upload_binary.rest hash localFs remoteFs remoteRoot packageName localDir
            remoteDir [] [] := by
      simp [upload_binary, henvR]
    rw [upload_rest_fresh hash localFs _ remoteRoot packageName localDir remoteDir
      art _ _ hn hart hnosc] at e1
    have henv2 : (((remoteFs.write
          (pathJoin (pathJoin remoteRoot remoteDir) packageName ++ ".sha256")
          (hash art ++ " " ++ packageName)).write
          (pathJoin (pathJoin remoteRoot remoteDir) packageName) art)).read
        (pathJoin (pathJoin remoteRoot remoteDir) (basename envFile))
        = some v := by
      rw [Fs.read_write_ne _ _ _ _ (Ne.symm henvart),
        Fs.read_write_ne _ _ _ _ (Ne.symm henvsc)]
      exact henvR
    have hsc2 : (((remoteFs.write
          (pathJoin (pathJoin remoteRoot remoteDir) packageName ++ ".sha256")
          (hash art ++ " " ++ packageName)).write
          (pathJoin (pathJoin remoteRoot remoteDir) packageName) art)).read
        (pathJoin (pathJoin remoteRoot remoteDir) packageName ++ ".sha256")
        = some (hash art ++ " " ++ packageName) := by
      rw [Fs.read_write_ne _ _ _ _ hartsc, Fs.read_write_self]
    simp only [upload_twice, e1]
    rw [show (upload_binary hash envFile
        (localFs.write (pathJoin localDir packageName ++ ".sha256")
          (hash art ++ " " ++ packageName))
        (((remoteFs.write
            (pathJoin (pathJoin remoteRoot remoteDir) packageName ++ ".sha256")
            (hash art ++ " " ++ packageName)).write
          (pathJoin (pathJoin remoteRoot remoteDir) packageName) art))
        remoteRoot packageName localDir remoteDir)
      = _ from by
        simp only [upload_binary, henv2]
        exact upload_rest_match hash _ _ remoteRoot packageName localDir remoteDir
          art w [] [] hn hart2 hsc2 hw]
    simp

/-- C5 witness: a concrete double upload — the first transfers sidecar and
artifact, the second uploads nothing and leaves the remote store equal. -/
theorem C5_second_upload_is_noop_witness :
    (upload_twice (fun c => "H" ++ c) "root/ENVIRONMENT"
        [("L/A", "X"), ("root/ENVIRONMENT", "env")] [] "R" "A" "L" "ns").1.res
      = .ok ()
    ∧ pathJoin (pathJoin "R" "ns") "A" ++ ".sha256"
        ∈ (upload_twice (fun c => "H" ++ c) "root/ENVIRONMENT"
            [("L/A", "X"), ("root/ENVIRONMENT", "env")] [] "R" "A" "L" "ns").1.uploads
    ∧ pathJoin (pathJoin "R" "ns") "A"
        ∈ (upload_twice (fun c => "H" ++ c) "root/ENVIRONMENT"
            [("L/A", "X"), ("root/ENVIRONMENT", "env")] [] "R" "A" "L" "ns").1.uploads
    ∧ (upload_twice (fun c => "H" ++ c) "root/ENVIRONMENT"
        [("L/A", "X"), ("root/ENVIRONMENT", "env")] [] "R" "A" "L" "ns").2.res
      = .ok ()
    ∧ (upload_twice (fun c => "H" ++ c) "root/ENVIRONMENT"
        [("L/A", "X"), ("root/ENVIRONMENT", "env")] [] "R" "A" "L" "ns").2.uploads
      = []
    ∧ (upload_twice (fun c => "H" ++ c) "root/ENVIRONMENT"
        [("L/A", "X"), ("root/ENVIRONMENT", "env")] [] "R" "A" "L" "ns").2.remoteFs
      = (upload_twice (fun c => "H" ++ c) "root/ENVIRONMENT"
          [("L/A", "X"), ("root/ENVIRONMENT", "env")] [] "R" "A" "L" "ns").1.remoteFs :=
  C5_second_upload_is_noop (fun c => "H" ++ c) "root/ENVIRONMENT"
    [("L/A", "X"), ("root/ENVIRONMENT", "env")] [] "R" "A" "L" "ns" "X" "env"
    (by decide) (by decide) (by decide) (by decide) (by decide) (by decide)
    (by decide)

/-- C6 (code bug): a sub-step failing with a non-NotFound exception *before*
the local variable `package_name` is assigned — here `async_built_version`
raising a transport error — reaches the `except Exception` handler, whose
re-raise expression evaluates the unbound local `package_name`: the step
raises `UnboundLocalError`, not `PackageNotFoundError` as the claim states. -/
theorem C6_handler_evaluates_unbound_name :
    Fridge.check_remote_binary_exists "a1b2c3d4"
        (.error (.transportError "timeout")) (.ok "gst-devel.tar.bz2")
        (fun _ => .ok true)
      = .error (.nameError "package_name") := rfl

/-- C7: the environment descriptor is written at most once per namespace,
because every write is guarded by an existence check: (i) locally,
`_ensure_ready` leaves the file system untouched when the namespace's
ENVIRONMENT file already exists; (ii) remotely, `upload_binary` neither
uploads nor alters the remote descriptor object when it already exists. -/
theorem C7_descriptor_guarded_by_existence_check :
    (∀ (f : FridgeS) (recipe : Recipe) (localFs : Fs) (v : String),
        localFs.read (pathJoin (pathJoin f.config.binaries_local
            (f.config.checksum.take 8)) "ENVIRONMENT") = some v →
        (Fridge.ensure_ready f recipe localFs).2.2 = localFs)
    ∧ (∀ (hash : String → String) (envFile : String) (localFs remoteFs : Fs)
        (remoteRoot packageName localDir remoteDir v : String),
        remoteFs.read (pathJoin (pathJoin remoteRoot remoteDir) (basename envFile))
          = some v →
        basename envFile ≠ packageName →
        basename envFile ≠ packageName ++ ".sha256" →
        (upload_binary hash envFile localFs remoteFs remoteRoot packageName
            localDir remoteDir).remoteFs.read
            (pathJoin (pathJoin remoteRoot remoteDir) (basename envFile)) = some v
        ∧ pathJoin (pathJoin remoteRoot remoteDir) (basename envFile)
            ∉ (upload_binary hash envFile localFs remoteFs remoteRoot packageName
                localDir remoteDir).uploads) := by
  constructor
  · intro f recipe localFs v hv
    simp only [Fridge.ensure_ready]
    split
    · rfl
    · split
      · rfl
      · split
        · rfl
        · simp only [hv]
  · intro hash envFile localFs remoteFs remoteRoot packageName localDir remoteDir v
      hv hebn hebs
    have henvart : pathJoin (pathJoin remoteRoot remoteDir) (basename envFile)
        ≠ pathJoin (pathJoin remoteRoot remoteDir) packageName :=
      fun h => hebn (pathJoin_right_inj h)
    have henvsc : pathJoin (pathJoin remoteRoot remoteDir) (basename envFile)
        ≠ pathJoin (pathJoin remoteRoot remoteDir) packageName ++ ".sha256" :=
      pathJoin_ne_sidecar hebs
    simp only [upload_binary, hv]
    by_cases hn : packageName = ""
    · simp [upload_binary.rest, hn, hv]
    · cases hlf : localFs.read (pathJoin localDir packageName) with
      | none => simp [upload_binary.rest, hn, hlf, hv]
      | some art =>
        simp only [upload_binary.rest, if_neg hn, hlf]
        split
        · constructor
          · rw [Fs.read_write_ne _ _ _ _ (Ne.symm henvart),
              Fs.read_write_ne _ _ _ _ (Ne.symm henvsc)]
            exact hv
          · simp [henvart, henvsc]
        · exact ⟨hv, by simp⟩

/-- C7 witness: a concrete existing local descriptor and a concrete existing
remote descriptor, both left untouched. -/
theorem C7_descriptor_guarded_by_existence_check_witness :
    ((Fridge.ensure_ready
        ⟨⟨"root", true, "deadbeefcafe", "cfgstring"⟩, true, none, none, none⟩
        ⟨"gst", true⟩ [("root/deadbeef/ENVIRONMENT", "x")]).2.2
      = [("root/deadbeef/ENVIRONMENT", "x")])
    ∧ ((upload_binary (fun c => "H" ++ c) "root/ENVIRONMENT" [("L/A", "X")]
          [("R/ns/ENVIRONMENT", "env")] "R" "A" "L" "ns").remoteFs.read
          (pathJoin (pathJoin "R" "ns") (basename "root/ENVIRONMENT")) = some "env"
       ∧ pathJoin (pathJoin "R" "ns") (basename "root/ENVIRONMENT")
           ∉ (upload_binary (fun c => "H" ++ c) "root/ENVIRONMENT" [("L/A", "X")]
               [("R/ns/ENVIRONMENT", "env")] "R" "A" "L" "ns").uploads) :=
  ⟨C7_descriptor_guarded_by_existence_check.1
      ⟨⟨"root", true, "deadbeefcafe", "cfgstring"⟩, true, none, none, none⟩
      ⟨"gst", true⟩ [("root/deadbeef/ENVIRONMENT", "x")] "x" (by decide),
   C7_descriptor_guarded_by_existence_check.2 (fun c => "H" ++ c)
      "root/ENVIRONMENT" [("L/A", "X")] [("R/ns/ENVIRONMENT", "env")]
      "R" "A" "L" "ns" "env" (by decide) (by decide) (by decide)⟩

/-- C8: artifact-name derivation is deterministic: `_get_package_name` is a
pure function of the recipe and configuration state, and the name the fetch
pipeline step passes to the backend equals the name the upload pipeline step
derives, for any surrounding file-system states. -/
theorem C8_fetch_and_upload_derive_same_name (hash : String → String)
    (store : PackageStore) (cfg : TargetConfig) (recipe : Recipe)
    (binaries_local env_checksum remoteRoot env_file : String)
    (lfsF rfsF lfsU rfsU : Fs) :
    Fridge.get_package_name store cfg recipe = Fridge.get_package_name store cfg recipe
    ∧ (Fridge.fetch_binary_step hash store cfg recipe binaries_local env_checksum
        remoteRoot lfsF rfsF).2
      = (Fridge.upload_binary_step hash store cfg recipe binaries_local env_checksum
          remoteRoot env_file lfsU rfsU).2 :=
  ⟨rfl, rfl⟩

/-- C9: when the first readiness resolution fails with the fatal
missing-binaries-remote configuration error, `env_checksum` was assigned
before the raise, so a subsequent readiness call on the same instance skips
the whole readiness block: it succeeds and changes neither the instance
state nor the local file system. -/
theorem C9_fatal_config_error_raised_once (f : FridgeS) (r1 r2 : Recipe)
    (localFs : Fs)
    (h0 : f.env_checksum = none)
    (hrem : f.binaries_remote = false)
    (hcs : f.config.checksum.take 8 ≠ "")
    (ha1 : r1.allow_package_creation = true)
    (ha2 : r2.allow_package_creation = true) :
    (Fridge.ensure_ready f r1 localFs).1
        = .error (.fatalError "Configuration without binaries remote")
    ∧ (Fridge.ensure_ready f r1 localFs).2.1.env_checksum
        = some (f.config.checksum.take 8)
    ∧ (Fridge.ensure_ready (Fridge.ensure_ready f r1 localFs).2.1 r2
          (Fridge.ensure_ready f r1 localFs).2.2)
        = (.ok (), (Fridge.ensure_ready f r1 localFs).2.1,
            (Fridge.ensure_ready f r1 localFs).2.2) := by
  have e1 : Fridge.ensure_ready f r1 localFs
      = (.error (.fatalError "Configuration without binaries remote"),
          { f with env_checksum := some (f.config.checksum.take 8),
                   binaries_local :=
                     some (pathJoin f.config.binaries_local
                       (f.config.checksum.take 8)) },
          localFs) := by
    simp [Fridge.ensure_ready, ha1, h0, truthyStr, hrem]
  rw [e1]
  refine ⟨rfl, rfl, ?_⟩
  simp [Fridge.ensure_ready, ha2, truthyStr, hcs]

/-- C9 witness: a concrete fridge with no remote configured. -/
theorem C9_fatal_config_error_raised_once_witness :
    (Fridge.ensure_ready
        ⟨⟨"root", false, "deadbeefcafe", "cfgstring"⟩, false, none, none, none⟩
        ⟨"gst", true⟩ []).1
      = .error (.fatalError "Configuration without binaries remote")
    ∧ (Fridge.ensure_ready
        ⟨⟨"root", false, "deadbeefcafe", "cfgstring"⟩, false, none, none, none⟩
        ⟨"gst", true⟩ []).2.1.env_checksum = some ("deadbeefcafe".take 8)
    ∧ (Fridge.ensure_ready
        (Fridge.ensure_ready
          ⟨⟨"root", false, "deadbeefcafe", "cfgstring"⟩, false, none, none, none⟩
          ⟨"gst", true⟩ []).2.1 ⟨"glib", true⟩
        (Fridge.ensure_ready
          ⟨⟨"root", false, "deadbeefcafe", "cfgstring"⟩, false, none, none, none⟩
          ⟨"gst", true⟩ []).2.2)
      = (.ok (),
          (Fridge.ensure_ready
            ⟨⟨"root", false, "deadbeefcafe", "cfgstring"⟩, false, none, none, none⟩
            ⟨"gst", true⟩ []).2.1,
          (Fridge.ensure_ready
            ⟨⟨"root", false, "deadbeefcafe", "cfgstring"⟩, false, none, none, none⟩
            ⟨"gst", true⟩ []).2.2) :=
  C9_fatal_config_error_raised_once
    ⟨⟨"root", false, "deadbeefcafe", "cfgstring"⟩, false, none, none, none⟩
    ⟨"gst", true⟩ ⟨"glib", true⟩ [] rfl rfl (by decide) rfl rfl
